import Mathlib

/-!
Verification of the turtle-adventure game core (`turtle_adventure.py`).

The game's geometry is real-valued (Python floats doing `sqrt`, `cos`, `sin`
and field arithmetic); we embed it over a linear ordered field, instantiated
at `ℚ` where the code only adds, subtracts and compares (so the definitions
stay decidable), and at `ℝ` where the code takes square roots or uses
trigonometry.
-/

open Classical

namespace TurtleAdventure

/-- `Enemy.hits_player` (turtle_adventure.py, lines 246-254): the player is hit
when its position lies strictly inside the axis-aligned square of side `size`
centered at the enemy position `(ex, ey)`:
`(self.x - self.size/2 < player.x < self.x + self.size/2) and
 (self.y - self.size/2 < player.y < self.y + self.size/2)`. -/
def hits_player {α : Type} [LinearOrderedField α] (ex ey size px py : α) : Prop :=
  (ex - size / 2 < px ∧ px < ex + size / 2) ∧
  (ey - size / 2 < py ∧ py < ey + size / 2)

/-- `Home.contains` (turtle_adventure.py, lines 128-134):
`x1 <= x <= x2 and y1 <= y <= y2` with `x1, x2 = self.x - size/2, self.x + size/2`
and likewise for `y`. -/
def contains {α : Type} [LinearOrderedField α] (hx hy size x y : α) : Prop :=
  (hx - size / 2 ≤ x ∧ x ≤ hx + size / 2) ∧
  (hy - size / 2 ≤ y ∧ y ≤ hy + size / 2)

/-- The mutable state of a `RandomWalkEnemy` (turtle_adventure.py, lines
296-306): position plus the per-axis velocity drawn once in `__init__`
(`random.uniform(-1, 1)` for each axis; here the draws are parameters of the
state). -/
structure RandomWalkState where
  x : ℚ
  y : ℚ
  x_speed : ℚ
  y_speed : ℚ

/-- `RandomWalkEnemy.update` (turtle_adventure.py, lines 311-323), movement
and boundary reflection only (the trailing `canvas.move` call is rendering and
the collision check does not change this state): advance by the velocity, then
negate the x velocity when `x - size/2 <= 0 or x + size/2 >= screen_width`,
and likewise for y against `screen_height`. -/
def randomWalkUpdate (screen_width screen_height size : ℚ)
    (s : RandomWalkState) : RandomWalkState :=
  let x := s.x + s.x_speed
  let y := s.y + s.y_speed
  let x_speed :=
    if x - size / 2 ≤ 0 ∨ x + size / 2 ≥ screen_width then -s.x_speed
    else s.x_speed
  let y_speed :=
    if y - size / 2 ≤ 0 ∨ y + size / 2 ≥ screen_height then -s.y_speed
    else s.y_speed
  ⟨x, y, x_speed, y_speed⟩

/-- One enemy as built by `EnemyGenerator.create_enemy` (turtle_adventure.py,
lines 541-576): the constructor arguments of the four classes instantiated
there. `FencingEnemy.__init__` (lines 388-401) sets the position from the
waypoint when it is active; `CircularEnemy.__init__` (lines 463-476) stores a
center, radius and angular speed instead of a position. -/
inductive GenEnemy
  | randomWalk (size : ℤ) (color : String) (speed : ℚ) (x y : ℚ)
  | chasing (size : ℤ) (color : String) (speed : ℚ) (x y : ℚ)
  | fencing (size : ℤ) (color : String) (speed : ℚ) (x y : ℚ)
  | circular (size : ℤ) (color : String) (speed : ℚ) (cx cy radius angular : ℚ)
deriving DecidableEq

/-- The part of `TurtleAdventureGame` that `EnemyGenerator.create_enemy`
reads and writes (turtle_adventure.py, lines 579-620): screen dimensions, the
waypoint (read by `FencingEnemy.__init__`), and the append-only enemy list
(`add_enemy`, lines 615-620). `default_x`/`default_y` stand for the initial
`GameElement` position that a `FencingEnemy` keeps when the waypoint is
inactive (set in the external `gamelib` module, which is not part of this
source file). -/
structure GenGame where
  screen_width : ℤ
  screen_height : ℤ
  waypoint_active : Bool
  waypoint_x : ℚ
  waypoint_y : ℚ
  default_x : ℚ
  default_y : ℚ
  home_x : ℚ
  home_y : ℚ
  enemies : List GenEnemy
deriving DecidableEq

/-- `EnemyGenerator.create_enemy` (turtle_adventure.py, lines 541-576).
The four `random.randint` draws for the two random positions and the one for
the re-arm delay are passed in as parameters `rx1 ry1 rx2 ry2 delay`; the
returned integer is the delay handed to `after` for the next spawn.
`screen_width // 2` is Python floor division, hence `Int.fdiv`. -/
def create_enemy (g : GenGame) (rx1 ry1 rx2 ry2 delay : ℤ) : GenGame × ℤ :=
  let e1 := GenEnemy.randomWalk 20 "blue" 7 rx1 ry1
  let e2 := GenEnemy.chasing 20 "red" 3 rx2 ry2
  let e3 := GenEnemy.fencing 10 "green" 2
    (if g.waypoint_active then g.waypoint_x else g.default_x)
    (if g.waypoint_active then g.waypoint_y else g.default_y)
  let e4 := GenEnemy.circular 15 "orange" (5 / 2)
    (Int.fdiv g.screen_width 2 : ℤ) (Int.fdiv g.screen_height 2 : ℤ) 100 2
  ({ g with enemies := g.enemies ++ [e1, e2, e3, e4] }, delay)

/-- Euclidean distance between two points, as computed by
`(dx ** 2 + dy ** 2) ** 0.5` in `ChasingEnemy.update`, `math.sqrt` in
`FencingEnemy.update`, and `turtle.distance` in `Player.update`. -/
noncomputable def distR (x1 y1 x2 y2 : ℝ) : ℝ :=
  Real.sqrt ((x2 - x1) ^ 2 + (y2 - y1) ^ 2)

/-- The waypoint state (turtle_adventure.py, lines 30-84): an active flag and
a position, set by `activate(x, y)` and cleared by `deactivate()`. -/
structure WaypointR where
  active : Bool
  x : ℝ
  y : ℝ

/-- The movement half of `Player.update` (turtle_adventure.py, lines
177-183): when the waypoint is active, set the heading toward it, advance by
`speed`, then deactivate the waypoint when the distance measured *after* the
move is below `speed`.  `turtle.towards` at zero distance is `atan2(0, 0) = 0`
(heading east), so `forward` then moves `speed` along +x; that degenerate
branch is spelled out here. -/
noncomputable def playerMove (speed px py : ℝ) (wp : WaypointR) :
    (ℝ × ℝ) × WaypointR :=
  if wp.active then
    let d := distR px py wp.x wp.y
    let nx := if d = 0 then px + speed else px + (wp.x - px) / d * speed
    let ny := if d = 0 then py else py + (wp.y - py) / d * speed
    if distR nx ny wp.x wp.y < speed then ((nx, ny), { wp with active := false })
    else ((nx, ny), wp)
  else ((px, py), wp)

/-- `ChasingEnemy.update` (turtle_adventure.py, lines 350-372), movement only
(the collision check does not change the position): when the distance to the
player is positive, move `speed * modifier` toward the player along the unit
direction, with `modifier = 0.5` when the distance is below 50 and `1.0`
otherwise; at distance zero do not move. -/
noncomputable def chasingUpdate (speed ex ey px py : ℝ) : ℝ × ℝ :=
  let dx := px - ex
  let dy := py - ey
  let d := distR ex ey px py
  if 0 < d then
    let m : ℝ := if d < 50 then 0.5 else 1
    (ex + dx / d * speed * m, ey + dy / d * speed * m)
  else (ex, ey)

/-- Python's float `x % 360`: floor-based remainder `x - 360 * floor(x/360)`,
used by `CircularEnemy.update` to wrap the phase angle. -/
noncomputable def rmod360 (x : ℝ) : ℝ := x - 360 * ⌊x / 360⌋

/-- `math.radians`: degrees to radians. -/
noncomputable def radians (x : ℝ) : ℝ := x * Real.pi / 180

/-- The mutable state of a `CircularEnemy` (turtle_adventure.py, lines
462-476): position plus the accumulated phase angle (which starts at 0 in
`__init__`); center, radius and angular speed are immutable constructor
parameters and are kept outside the state. -/
structure CircularState where
  x : ℝ
  y : ℝ
  angle : ℝ

/-- `CircularEnemy.update` (turtle_adventure.py, lines 481-491), movement
only: add the angular speed to the angle, wrap it modulo 360, and place the
enemy at `center + radius * (cos, sin)` of that angle in radians. -/
noncomputable def circularUpdate (cx cy radius angular : ℝ)
    (s : CircularState) : CircularState :=
  let a := rmod360 (s.angle + angular)
  { x := cx + radius * Real.cos (radians a),
    y := cy + radius * Real.sin (radians a),
    angle := a }

/-- `n` consecutive `CircularEnemy.update` ticks. -/
noncomputable def circularIter (cx cy radius angular : ℝ) :
    ℕ → CircularState → CircularState
  | 0, s => s
  | n + 1, s => circularUpdate cx cy radius angular (circularIter cx cy radius angular n s)

/-- The mutable state of a `FencingEnemy` (turtle_adventure.py, lines
387-401): position, the index of the corner currently steered for, and the
lazily computed list of corner positions (empty until the first active-waypoint
update). -/
structure FencingState where
  x : ℝ
  y : ℝ
  cornerIndex : ℕ
  corners : List (ℝ × ℝ)

/-- `FencingEnemy.calculate_square_path` (turtle_adventure.py, lines
448-459): the four corners of the square of half-side 50 around the waypoint
position. -/
def squarePath (wx wy : ℝ) : List (ℝ × ℝ) :=
  [(wx - 50, wy - 50), (wx + 50, wy - 50), (wx + 50, wy + 50), (wx - 50, wy + 50)]

/-- `FencingEnemy.update` (turtle_adventure.py, lines 406-436): return
untouched (and without reaching the collision check, hence the `False` hit
flag) while the waypoint is inactive; compute the corner list from the
waypoint's current position if it is still empty (and never again
afterwards); then either step `speed` toward the current corner or, once
within `speed` of it, advance the corner index cyclically; finally report
whether the (possibly moved) enemy hits the player. -/
noncomputable def fencingUpdate (speed size : ℝ) (wp : WaypointR)
    (px py : ℝ) (s : FencingState) : FencingState × Prop :=
  if !wp.active then (s, False)
  else
    let corners := if s.corners = [] then squarePath wp.x wp.y else s.corners
    if corners = [] then ({ s with corners := corners }, False)
    else
      -- `corner_positions[corner_index]`; the index stays in range because it
      -- is only ever advanced modulo the list length, so the default of
      -- `getD` is never consulted on reachable states
      let t := corners.getD s.cornerIndex (0, 0)
      let dx := t.1 - s.x
      let dy := t.2 - s.y
      let d := Real.sqrt (dx ^ 2 + dy ^ 2)
      if d > speed then
        let nx := s.x + dx / d * speed
        let ny := s.y + dy / d * speed
        ({ s with x := nx, y := ny, corners := corners },
         hits_player nx ny size px py)
      else
        ({ s with cornerIndex := (s.cornerIndex + 1) % corners.length,
                  corners := corners },
         hits_player s.x s.y size px py)

/-- A sequence of `FencingEnemy.update` ticks, one per (waypoint, player)
input. -/
noncomputable def fencingIter (speed size : ℝ) :
    List (WaypointR × ℝ × ℝ) → FencingState → FencingState
  | [], s => s
  | i :: rest, s =>
      fencingIter speed size rest (fencingUpdate speed size i.1 i.2.1 i.2.2 s).1

/-- ℝ-valued mirror of the movement/reflection part of
`RandomWalkEnemy.update` (turtle_adventure.py, lines 311-318), for the tick
model, which runs over ℝ because the other enemy variants take square
roots. -/
noncomputable def randomWalkUpdateR (w h size x y vx vy : ℝ) : ℝ × ℝ × ℝ × ℝ :=
  let x2 := x + vx
  let y2 := y + vy
  let vx2 := if x2 - size / 2 ≤ 0 ∨ x2 + size / 2 ≥ w then -vx else vx
  let vy2 := if y2 - size / 2 ≤ 0 ∨ y2 + size / 2 ≥ h then -vy else vy
  (x2, y2, vx2, vy2)

/-- The per-variant mutable state of one spawned enemy: each constructor
carries what the corresponding Python class stores and updates. -/
inductive EnemyState
  | randomWalk (size x y vx vy : ℝ)
  | chasing (size speed x y : ℝ)
  | fencing (size speed : ℝ) (st : FencingState)
  | circular (size cx cy radius angular : ℝ) (st : CircularState)

/-- One enemy `update` call: the moved state plus the `hits_player` condition
the variant tests at the end of its update (`FencingEnemy` skips the test
entirely while the waypoint is inactive). -/
noncomputable def enemyStep (w h px py : ℝ) (wp : WaypointR) :
    EnemyState → EnemyState × Prop
  | .randomWalk size x y vx vy =>
      let m := randomWalkUpdateR w h size x y vx vy
      (.randomWalk size m.1 m.2.1 m.2.2.1 m.2.2.2,
       hits_player m.1 m.2.1 size px py)
  | .chasing size speed x y =>
      let p := chasingUpdate speed x y px py
      (.chasing size speed p.1 p.2, hits_player p.1 p.2 size px py)
  | .fencing size speed st =>
      let r := fencingUpdate speed size wp px py st
      (.fencing size speed r.1, r.2)
  | .circular size cx cy radius angular st =>
      let st2 := circularUpdate cx cy radius angular st
      (.circular size cx cy radius angular st2,
       hits_player st2.x st2.y size px py)

/-- Modelled from the spec: the session's terminal state {Won, Lost} (`none`
is Running).  The Python source keeps no explicit flag; `game_over_win` /
`game_over_lose` in `TurtleAdventureGame` stop the scheduler of the external
`gamelib.Game` class (not part of this source file) and draw the end text. -/
inductive Outcome
  | won
  | lost
deriving DecidableEq

/-- Modelled from the spec: `win()` / `lose()` set the terminal state and the
first caller wins — later calls are no-ops. -/
def setOutcome : Option Outcome → Outcome → Option Outcome
  | none, o => some o
  | some o0, _ => some o0

/-- The session state a tick acts on: screen size, waypoint, player, Home
(placed by `init_game`), the enemy list in insertion order, and the terminal
flag. -/
structure Session where
  screen_width : ℝ
  screen_height : ℝ
  waypoint : WaypointR
  home_x : ℝ
  home_y : ℝ
  home_size : ℝ
  player_x : ℝ
  player_y : ℝ
  player_speed : ℝ
  enemies : List EnemyState
  outcome : Option Outcome

/-- `Player.update` (turtle_adventure.py, lines 173-183): first the
Home-arrival check (`game_over_win` when `home.contains` the player's
position), then the waypoint-steering move. -/
noncomputable def playerStep (s : Session) : Session :=
  let out :=
    if contains s.home_x s.home_y s.home_size s.player_x s.player_y
    then setOutcome s.outcome Outcome.won else s.outcome
  let m := playerMove s.player_speed s.player_x s.player_y s.waypoint
  { s with outcome := out, player_x := m.1.1, player_y := m.1.2,
           waypoint := m.2 }

/-- Modelled from the spec: the tick loop updates every enemy in insertion
order; an enemy whose collision condition fired requests Lose, which the
session records only if no terminal state is set yet. -/
noncomputable def runEnemies (w h px py : ℝ) (wp : WaypointR) :
    List EnemyState → Option Outcome → List EnemyState × Option Outcome
  | [], out => ([], out)
  | e :: rest, out =>
      let r := enemyStep w h px py wp e
      let out2 := if r.2 then setOutcome out Outcome.lost else out
      let rr := runEnemies w h px py wp rest out2
      (r.1 :: rr.1, rr.2)

/-- Modelled from the spec: one tick of the external `gamelib` game loop.
Elements update in the order `init_game` and `add_enemy` registered them —
waypoint and home are no-op updates, then the player, then every enemy (each
enemy reads the player's already-moved position and the possibly-deactivated
waypoint). -/
noncomputable def tick (s : Session) : Session :=
  let s1 := playerStep s
  let r := runEnemies s1.screen_width s1.screen_height s1.player_x s1.player_y
    s1.waypoint s1.enemies s1.outcome
  { s1 with enemies := r.1, outcome := r.2 }

end TurtleAdventure

namespace TurtleAdventure

/-- C1: for every enemy position, size and player position, `hits_player`
holds iff the player lies strictly inside the size×size axis-aligned square
centered at the enemy; moreover a player exactly on the square's edge
(at `ex + size/2` in x) is never a hit. -/
theorem hits_player_strict_inside {α : Type} [LinearOrderedField α]
    (ex ey size px py : α) :
    (hits_player ex ey size px py ↔
      |px - ex| < size / 2 ∧ |py - ey| < size / 2) ∧
    ¬ hits_player ex ey size (ex + size / 2) py := by
  constructor
  · unfold hits_player
    rw [abs_sub_lt_iff, abs_sub_lt_iff]
    constructor
    · rintro ⟨⟨h1, h2⟩, h3, h4⟩
      exact ⟨⟨by linarith, by linarith⟩, by linarith, by linarith⟩
    · rintro ⟨⟨h1, h2⟩, h3, h4⟩
      exact ⟨⟨by linarith, by linarith⟩, by linarith, by linarith⟩
  · rintro ⟨⟨-, h2⟩, -⟩
    exact lt_irrefl _ h2

/-- Witness for C1 at a concrete input: a size-2 enemy at the origin over ℚ;
the point (1, 0) sits exactly on its edge and is not a hit. -/
theorem hits_player_strict_inside_witness :
    (hits_player (0 : ℚ) 0 2 1 0 ↔ |(1 : ℚ) - 0| < 2 / 2 ∧ |(0 : ℚ) - 0| < 2 / 2) ∧
    ¬ hits_player (0 : ℚ) 0 2 (0 + 2 / 2) 0 :=
  hits_player_strict_inside 0 0 2 1 0

/-- C10: an enemy whose `size` is zero or negative never registers a hit,
whatever the player position (including the player exactly at the enemy's
own position). -/
theorem hits_player_nonpos_size {α : Type} [LinearOrderedField α]
    (ex ey size px py : α) (h : size ≤ 0) :
    ¬ hits_player ex ey size px py := by
  rintro ⟨⟨h1, h2⟩, -⟩
  have : size / 2 ≤ 0 := by linarith
  linarith

/-- Witness for C10 at a concrete input: a size-0 enemy at the origin does not
hit a player standing exactly on it. -/
theorem hits_player_nonpos_size_witness :
    (0 : ℚ) ≤ 0 ∧ ¬ hits_player (0 : ℚ) 0 0 0 0 :=
  ⟨le_refl 0, hits_player_nonpos_size 0 0 0 0 0 (le_refl 0)⟩

/-- C6: `Home.contains` holds iff the point lies in the closed (boundary
inclusive) size×size square centered at Home; in particular, for a
nonnegative size, the point exactly on Home's right edge is contained. -/
theorem contains_closed_square {α : Type} [LinearOrderedField α]
    (hx hy size x y : α) :
    (contains hx hy size x y ↔
      |x - hx| ≤ size / 2 ∧ |y - hy| ≤ size / 2) ∧
    (0 ≤ size → contains hx hy size (hx + size / 2) hy) := by
  constructor
  · unfold contains
    rw [abs_sub_le_iff, abs_sub_le_iff]
    constructor
    · rintro ⟨⟨h1, h2⟩, h3, h4⟩
      exact ⟨⟨by linarith, by linarith⟩, by linarith, by linarith⟩
    · rintro ⟨⟨h1, h2⟩, h3, h4⟩
      exact ⟨⟨by linarith, by linarith⟩, by linarith, by linarith⟩
  · intro hs
    refine ⟨⟨by linarith, le_refl _⟩, by linarith, by linarith⟩

/-- Witness for C6's boundary clause at a concrete input: Home of size 20 at
the origin contains the point (10, 0) on its edge. -/
theorem contains_closed_square_witness :
    (0 : ℚ) ≤ 20 ∧ contains (0 : ℚ) 0 20 (0 + 20 / 2) 0 :=
  ⟨by norm_num, (contains_closed_square (0 : ℚ) 0 20 0 0).2 (by norm_num)⟩

/-- C5: each `RandomWalkEnemy` update advances the position by the fixed
per-axis velocity; in the tick where the moved bounding square touches or
crosses the playfield edge on the x axis only, the x velocity is negated
exactly once and the y velocity is untouched (and symmetrically for y); with
no boundary contact the velocity is unchanged. -/
theorem randomWalk_step (w h size : ℚ) (s : RandomWalkState) :
    ((randomWalkUpdate w h size s).x = s.x + s.x_speed ∧
      (randomWalkUpdate w h size s).y = s.y + s.y_speed) ∧
    ((s.x + s.x_speed - size / 2 ≤ 0 ∨ s.x + s.x_speed + size / 2 ≥ w) →
      ¬ (s.y + s.y_speed - size / 2 ≤ 0 ∨ s.y + s.y_speed + size / 2 ≥ h) →
      (randomWalkUpdate w h size s).x_speed = -s.x_speed ∧
      (randomWalkUpdate w h size s).y_speed = s.y_speed) ∧
    (¬ (s.x + s.x_speed - size / 2 ≤ 0 ∨ s.x + s.x_speed + size / 2 ≥ w) →
      (s.y + s.y_speed - size / 2 ≤ 0 ∨ s.y + s.y_speed + size / 2 ≥ h) →
      (randomWalkUpdate w h size s).x_speed = s.x_speed ∧
      (randomWalkUpdate w h size s).y_speed = -s.y_speed) ∧
    (¬ (s.x + s.x_speed - size / 2 ≤ 0 ∨ s.x + s.x_speed + size / 2 ≥ w) →
      ¬ (s.y + s.y_speed - size / 2 ≤ 0 ∨ s.y + s.y_speed + size / 2 ≥ h) →
      (randomWalkUpdate w h size s).x_speed = s.x_speed ∧
      (randomWalkUpdate w h size s).y_speed = s.y_speed) := by
  refine ⟨⟨rfl, rfl⟩, ?_, ?_, ?_⟩ <;> intro hx hy <;>
    simp only [randomWalkUpdate, if_pos, if_neg, hx, hy] <;>
    constructor <;> simp [hx, hy]

/-- Witness for C5 at a concrete input: on a 100×100 field, a size-20 walker
at (5, 50) with velocity (-1, 1/2) moves to (4, 50.5), which touches the left
edge, so the x velocity flips to 1 and the y velocity stays 1/2. -/
theorem randomWalk_step_witness :
    (randomWalkUpdate 100 100 20 ⟨5, 50, -1, 1/2⟩).x_speed = -(-1) ∧
    (randomWalkUpdate 100 100 20 ⟨5, 50, -1, 1/2⟩).y_speed = 1/2 :=
  (randomWalk_step 100 100 20 ⟨5, 50, -1, 1/2⟩).2.1 (by norm_num) (by norm_num)

/-- C7 counterexample: with the waypoint active at (0, 0) on an 800×450
playfield whose Home sits at (700, 225) (the `init_game` placement,
turtle_adventure.py line 606), the spawned batch's Fencing enemy is created at
the waypoint position (0, 0), which is 700 units away from Home in x — not
"near Home" (here read as within 100 units on each axis, twice the 50-unit
fencing radius). -/
theorem create_enemy_fencing_far_from_home :
    (create_enemy ⟨800, 450, true, 0, 0, 0, 0, 700, 225, []⟩
        10 10 20 20 1500).1.enemies.get? 2 =
      some (GenEnemy.fencing 10 "green" 2 0 0) ∧
    ¬ (|(0 : ℚ) - 700| ≤ 100 ∧ |(0 : ℚ) - 225| ≤ 100) := by
  constructor
  · rfl
  · rintro ⟨h, -⟩
    rw [abs_sub_le_iff] at h
    have := h.2
    norm_num at this

/-- C7 amended: every spawn event appends, in order, one RandomWalk enemy and
one Chasing enemy at the randomly drawn positions (in the playfield bounds
when the draws are), one Fencing enemy positioned at the waypoint's current
position when the waypoint is active and at its default position otherwise
(not near Home), and one Circular enemy centered on the playfield center, and
re-arms the next spawn with the freshly drawn delay, which lies in
[1000, 2000]. -/
theorem create_enemy_batch (g : GenGame) (rx1 ry1 rx2 ry2 delay : ℤ)
    (hx1 : 0 ≤ rx1 ∧ rx1 ≤ g.screen_width)
    (hy1 : 0 ≤ ry1 ∧ ry1 ≤ g.screen_height)
    (hx2 : 0 ≤ rx2 ∧ rx2 ≤ g.screen_width)
    (hy2 : 0 ≤ ry2 ∧ ry2 ≤ g.screen_height)
    (hdelay : 1000 ≤ delay ∧ delay ≤ 2000) :
    (create_enemy g rx1 ry1 rx2 ry2 delay).1.enemies =
      g.enemies ++
        [GenEnemy.randomWalk 20 "blue" 7 rx1 ry1,
         GenEnemy.chasing 20 "red" 3 rx2 ry2,
         GenEnemy.fencing 10 "green" 2
           (if g.waypoint_active then g.waypoint_x else g.default_x)
           (if g.waypoint_active then g.waypoint_y else g.default_y),
         GenEnemy.circular 15 "orange" (5 / 2)
           (Int.fdiv g.screen_width 2 : ℤ) (Int.fdiv g.screen_height 2 : ℤ)
           100 2] ∧
    ((0 ≤ rx1 ∧ rx1 ≤ g.screen_width) ∧ (0 ≤ ry1 ∧ ry1 ≤ g.screen_height)) ∧
    ((0 ≤ rx2 ∧ rx2 ≤ g.screen_width) ∧ (0 ≤ ry2 ∧ ry2 ≤ g.screen_height)) ∧
    (create_enemy g rx1 ry1 rx2 ry2 delay).2 = delay ∧
    1000 ≤ (create_enemy g rx1 ry1 rx2 ry2 delay).2 ∧
    (create_enemy g rx1 ry1 rx2 ry2 delay).2 ≤ 2000 := by
  exact ⟨rfl, ⟨hx1, hy1⟩, ⟨hx2, hy2⟩, rfl, hdelay.1, hdelay.2⟩

theorem distR_sq (x1 y1 x2 y2 : ℝ) :
    distR x1 y1 x2 y2 ^ 2 = (x2 - x1) ^ 2 + (y2 - y1) ^ 2 :=
  Real.sq_sqrt (by positivity)

/-- Stepping `k` units from `(ax, ay)` along the unit direction toward
`(wx, wy)` covers exactly `|k|` units of ground. -/
theorem distR_move_along (ax ay wx wy k : ℝ) (hd : 0 < distR ax ay wx wy) :
    distR ax ay (ax + (wx - ax) / distR ax ay wx wy * k)
      (ay + (wy - ay) / distR ax ay wx wy * k) = |k| := by
  have hS : (wx - ax) ^ 2 + (wy - ay) ^ 2 = distR ax ay wx wy ^ 2 :=
    (distR_sq ax ay wx wy).symm
  have hne : distR ax ay wx wy ≠ 0 := ne_of_gt hd
  conv_lhs => rw [distR]
  have h1 : (ax + (wx - ax) / distR ax ay wx wy * k - ax) ^ 2 +
      (ay + (wy - ay) / distR ax ay wx wy * k - ay) ^ 2 = k ^ 2 := by
    field_simp
    linear_combination k ^ 2 * hS
  rw [h1, Real.sqrt_sq_eq_abs]

/-- Stepping `k` units from `(ax, ay)` toward `(wx, wy)` lands at distance
`|d - k|` from `(wx, wy)`, where `d` is the starting distance. -/
theorem distR_after_step (ax ay wx wy k : ℝ) (hd : 0 < distR ax ay wx wy) :
    distR (ax + (wx - ax) / distR ax ay wx wy * k)
      (ay + (wy - ay) / distR ax ay wx wy * k) wx wy =
      |distR ax ay wx wy - k| := by
  have hS : (wx - ax) ^ 2 + (wy - ay) ^ 2 = distR ax ay wx wy ^ 2 :=
    (distR_sq ax ay wx wy).symm
  have hne : distR ax ay wx wy ≠ 0 := ne_of_gt hd
  conv_lhs => rw [distR]
  have h1 : (wx - (ax + (wx - ax) / distR ax ay wx wy * k)) ^ 2 +
      (wy - (ay + (wy - ay) / distR ax ay wx wy * k)) ^ 2 =
      (distR ax ay wx wy - k) ^ 2 := by
    field_simp
    linear_combination (distR ax ay wx wy - k) ^ 2 * hS
  rw [h1, Real.sqrt_sq_eq_abs]

/-- `playerMove` with an active waypoint at positive distance: explicit form
of the moved position and of the waypoint deactivation test. -/
theorem playerMove_active_eq (speed px py : ℝ) (wp : WaypointR)
    (hact : wp.active = true) (hne : distR px py wp.x wp.y ≠ 0) :
    playerMove speed px py wp =
      ((px + (wp.x - px) / distR px py wp.x wp.y * speed,
        py + (wp.y - py) / distR px py wp.x wp.y * speed),
       if distR (px + (wp.x - px) / distR px py wp.x wp.y * speed)
            (py + (wp.y - py) / distR px py wp.x wp.y * speed) wp.x wp.y < speed
       then { wp with active := false } else wp) := by
  unfold playerMove
  rw [hact]
  simp only [if_neg hne, if_true]
  split_ifs <;> rfl

/-- C2 counterexample: a player at (0, 0) with speed 5 steering toward an
active waypoint at (6, 0) starts at distance 6, which is not below the speed
5, yet the code deactivates the waypoint that tick (it compares the
*post-move* distance, here 1, against the speed). -/
theorem playerMove_pre_move_claim_false :
    ¬ distR 0 0 6 0 < 5 ∧
    (playerMove 5 0 0 ⟨true, 6, 0⟩).2.active = false := by
  have h6 : distR 0 0 6 0 = 6 := by
    unfold distR
    rw [show ((6 : ℝ) - 0) ^ 2 + ((0 : ℝ) - 0) ^ 2 = 6 ^ 2 by norm_num]
    exact Real.sqrt_sq (by norm_num)
  have hd : (0 : ℝ) < distR 0 0 6 0 := by rw [h6]; norm_num
  refine ⟨by rw [h6]; norm_num, ?_⟩
  have heq := playerMove_active_eq 5 0 0 ⟨true, 6, 0⟩ rfl (ne_of_gt hd)
  have hafter := distR_after_step 0 0 6 0 5 hd
  rw [heq]
  have hcond : distR (0 + ((6 : ℝ) - 0) / distR 0 0 6 0 * 5)
      (0 + ((0 : ℝ) - 0) / distR 0 0 6 0 * 5) 6 0 < 5 := by
    rw [hafter, h6]
    norm_num
  simp only [if_pos hcond]

/-- C2 amended: with the waypoint active at positive distance `d` and a
nonnegative speed, the player advances exactly `speed` units along the
heading toward the waypoint, and the waypoint is deactivated that tick
precisely when the *post-move* distance is below `speed` — equivalently, when
`d < 2 * speed` (so a player at distance 3 with speed 5 still deactivates it,
overshooting, but so does a player at any distance up to twice the speed). -/
theorem playerMove_step_deactivation (speed px py : ℝ) (wp : WaypointR)
    (hact : wp.active = true) (hd : 0 < distR px py wp.x wp.y)
    (hs : 0 ≤ speed) :
    distR px py (playerMove speed px py wp).1.1 (playerMove speed px py wp).1.2
      = speed ∧
    ((playerMove speed px py wp).2.active = false ↔
      distR px py wp.x wp.y < 2 * speed) := by
  have heq := playerMove_active_eq speed px py wp hact (ne_of_gt hd)
  have hmove := distR_move_along px py wp.x wp.y speed hd
  have hafter := distR_after_step px py wp.x wp.y speed hd
  rw [heq]
  constructor
  · simpa [abs_of_nonneg hs] using hmove
  · split_ifs with hlt
    · rw [hafter] at hlt
      rcases abs_lt.mp hlt with ⟨h1, h2⟩
      simp only [true_iff]
      linarith
    · rw [hafter] at hlt
      simp only [hact]
      constructor
      · intro h
        exact absurd h (by simp)
      · intro h2
        exact absurd (abs_lt.mpr ⟨by linarith, by linarith⟩) hlt

/-- Witness for C2's amended claim at a concrete input: player at (0, 0),
speed 5, waypoint active at (3, 0); the player moves 5 units and the waypoint
is deactivated since 3 < 2 * 5. -/
theorem playerMove_step_deactivation_witness :
    distR 0 0 (playerMove 5 0 0 ⟨true, 3, 0⟩).1.1
      (playerMove 5 0 0 ⟨true, 3, 0⟩).1.2 = 5 ∧
    ((playerMove 5 0 0 ⟨true, 3, 0⟩).2.active = false ↔
      distR 0 0 3 0 < 2 * 5) := by
  have h3 : distR 0 0 3 0 = 3 := by
    unfold distR
    rw [show ((3 : ℝ) - 0) ^ 2 + ((0 : ℝ) - 0) ^ 2 = 3 ^ 2 by norm_num]
    exact Real.sqrt_sq (by norm_num)
  exact playerMove_step_deactivation 5 0 0 ⟨true, 3, 0⟩ rfl
    (by rw [show ((⟨true, 3, 0⟩ : WaypointR)).x = 3 from rfl,
            show ((⟨true, 3, 0⟩ : WaypointR)).y = 0 from rfl, h3]; norm_num)
    (by norm_num)

/-- C3: on a `ChasingEnemy` update, at distance exactly zero the position is
unchanged (no division by zero); at a positive distance below 50 the enemy
steps toward the player's current position covering exactly `0.5 * speed`
units; at distance 50 or more it covers the full `speed`. -/
theorem chasingUpdate_speed_zones (speed ex ey px py : ℝ) (hs : 0 ≤ speed) :
    (distR ex ey px py = 0 → chasingUpdate speed ex ey px py = (ex, ey)) ∧
    (0 < distR ex ey px py → distR ex ey px py < 50 →
      chasingUpdate speed ex ey px py =
        (ex + (px - ex) / distR ex ey px py * speed * 0.5,
         ey + (py - ey) / distR ex ey px py * speed * 0.5) ∧
      distR ex ey (chasingUpdate speed ex ey px py).1
        (chasingUpdate speed ex ey px py).2 = 0.5 * speed) ∧
    (50 ≤ distR ex ey px py →
      chasingUpdate speed ex ey px py =
        (ex + (px - ex) / distR ex ey px py * speed * 1,
         ey + (py - ey) / distR ex ey px py * speed * 1) ∧
      distR ex ey (chasingUpdate speed ex ey px py).1
        (chasingUpdate speed ex ey px py).2 = speed) := by
  refine ⟨?_, ?_, ?_⟩
  · intro h0
    have hneg : ¬ (0 < distR ex ey px py) := by rw [h0]; exact lt_irrefl 0
    simp only [chasingUpdate, if_neg hneg]
  · intro hd h50
    have heq : chasingUpdate speed ex ey px py =
        (ex + (px - ex) / distR ex ey px py * speed * 0.5,
         ey + (py - ey) / distR ex ey px py * speed * 0.5) := by
      simp only [chasingUpdate, if_pos hd, if_pos h50]
    refine ⟨heq, ?_⟩
    rw [heq]
    have := distR_move_along ex ey px py (speed * 0.5) hd
    have harr : 0 ≤ speed * 0.5 := by linarith
    calc distR ex ey (ex + (px - ex) / distR ex ey px py * speed * 0.5)
          (ey + (py - ey) / distR ex ey px py * speed * 0.5)
        = distR ex ey (ex + (px - ex) / distR ex ey px py * (speed * 0.5))
          (ey + (py - ey) / distR ex ey px py * (speed * 0.5)) := by
          ring_nf
      _ = |speed * 0.5| := this
      _ = 0.5 * speed := by rw [abs_of_nonneg harr]; ring
  · intro h50
    have hd : 0 < distR ex ey px py := lt_of_lt_of_le (by norm_num) h50
    have hnlt : ¬ distR ex ey px py < 50 := not_lt.mpr h50
    have heq : chasingUpdate speed ex ey px py =
        (ex + (px - ex) / distR ex ey px py * speed * 1,
         ey + (py - ey) / distR ex ey px py * speed * 1) := by
      simp only [chasingUpdate, if_pos hd, if_neg hnlt]
    refine ⟨heq, ?_⟩
    rw [heq]
    have := distR_move_along ex ey px py speed hd
    calc distR ex ey (ex + (px - ex) / distR ex ey px py * speed * 1)
          (ey + (py - ey) / distR ex ey px py * speed * 1)
        = distR ex ey (ex + (px - ex) / distR ex ey px py * speed)
          (ey + (py - ey) / distR ex ey px py * speed) := by ring_nf
      _ = |speed| := this
      _ = speed := abs_of_nonneg hs

/-- Witness for C3 at a concrete input: a chaser with speed 4 at the origin,
player at (3, 4), distance 5 (inside the braking zone), steps to
(3/5 * 2, 4/5 * 2) — exactly 2 = 0.5 * 4 units toward the player. -/
theorem chasingUpdate_speed_zones_witness :
    (0 : ℝ) ≤ 4 ∧ 0 < distR 0 0 3 4 ∧ distR 0 0 3 4 < 50 ∧
    chasingUpdate 4 0 0 3 4 =
      (0 + ((3 : ℝ) - 0) / distR 0 0 3 4 * 4 * 0.5,
       0 + ((4 : ℝ) - 0) / distR 0 0 3 4 * 4 * 0.5) := by
  have h5 : distR 0 0 3 4 = 5 := by
    unfold distR
    rw [show ((3 : ℝ) - 0) ^ 2 + ((4 : ℝ) - 0) ^ 2 = 5 ^ 2 by norm_num]
    exact Real.sqrt_sq (by norm_num)
  refine ⟨by norm_num, by rw [h5]; norm_num, by rw [h5]; norm_num, ?_⟩
  exact ((chasingUpdate_speed_zones 4 0 0 3 4 (by norm_num)).2.1
    (by rw [h5]; norm_num) (by rw [h5]; norm_num)).1

/-- Floor-based remainders compose: reducing the accumulator first does not
change the wrapped result. -/
theorem rmod360_add_left (a b : ℝ) :
    rmod360 (rmod360 a + b) = rmod360 (a + b) := by
  unfold rmod360
  rw [show (a - 360 * ⌊a / 360⌋ + b) / 360 = (a + b) / 360 - (⌊a / 360⌋ : ℝ)
      by ring]
  rw [Int.floor_sub_int]
  push_cast
  ring

/-- C4: starting from the construction state (angle 0), after `n ≥ 1` updates
a `CircularEnemy` with angular speed `angular` has phase angle
`(n * angular) mod 360` and sits at `center + radius * (cos, sin)` of that
angle in radians (the angle clause needs no update at all, so it is stated
for every `n`). -/
theorem circular_phase_position (cx cy radius angular : ℝ) (s : CircularState)
    (h0 : s.angle = 0) (n : ℕ) :
    (circularIter cx cy radius angular n s).angle = rmod360 (n * angular) ∧
    (1 ≤ n →
      (circularIter cx cy radius angular n s).x =
        cx + radius * Real.cos (radians (rmod360 (n * angular))) ∧
      (circularIter cx cy radius angular n s).y =
        cy + radius * Real.sin (radians (rmod360 (n * angular)))) := by
  induction n with
  | zero =>
      refine ⟨?_, by intro h; exact absurd h (by norm_num)⟩
      simp only [circularIter, h0, Nat.cast_zero, zero_mul]
      unfold rmod360
      norm_num
  | succ n ih =>
      have hcast : (n : ℝ) * angular + angular = ((n + 1 : ℕ) : ℝ) * angular := by
        push_cast
        ring
      have hang : (circularIter cx cy radius angular (n + 1) s).angle =
          rmod360 ((n + 1 : ℕ) * angular) := by
        show (circularUpdate cx cy radius angular
          (circularIter cx cy radius angular n s)).angle = _
        simp only [circularUpdate]
        rw [ih.1, rmod360_add_left, hcast]
      refine ⟨hang, fun _ => ?_⟩
      constructor
      · show (circularUpdate cx cy radius angular
          (circularIter cx cy radius angular n s)).x = _
        simp only [circularUpdate]
        rw [ih.1, rmod360_add_left, hcast]
      · show (circularUpdate cx cy radius angular
          (circularIter cx cy radius angular n s)).y = _
        simp only [circularUpdate]
        rw [ih.1, rmod360_add_left, hcast]

/-- Witness for C4 at a concrete input: one update of an orbiter with center
(1, 2), radius 10 and angular speed 5, started at angle 0. -/
theorem circular_phase_position_witness :
    (circularIter 1 2 10 5 1 ⟨3, 4, 0⟩).angle = rmod360 (((1 : ℕ) : ℝ) * 5) ∧
    (circularIter 1 2 10 5 1 ⟨3, 4, 0⟩).x =
      1 + 10 * Real.cos (radians (rmod360 (((1 : ℕ) : ℝ) * 5))) ∧
    (circularIter 1 2 10 5 1 ⟨3, 4, 0⟩).y =
      2 + 10 * Real.sin (radians (rmod360 (((1 : ℕ) : ℝ) * 5))) := by
  have h := circular_phase_position 1 2 10 5 ⟨3, 4, 0⟩ rfl 1
  exact ⟨h.1, (h.2 le_rfl).1, (h.2 le_rfl).2⟩

/-- One `FencingEnemy.update` never changes a nonempty corner list. -/
theorem fencingUpdate_corners_stable (speed size : ℝ) (wp : WaypointR)
    (px py : ℝ) (s : FencingState) (h : s.corners ≠ []) :
    (fencingUpdate speed size wp px py s).1.corners = s.corners := by
  simp only [fencingUpdate, if_neg h]
  split_ifs <;> simp_all

/-- Any sequence of `FencingEnemy.update` ticks keeps a nonempty corner list
exactly as it is. -/
theorem fencingIter_corners_stable (speed size : ℝ)
    (inputs : List (WaypointR × ℝ × ℝ)) (s : FencingState)
    (h : s.corners ≠ []) :
    (fencingIter speed size inputs s).corners = s.corners := by
  induction inputs generalizing s with
  | nil => rfl
  | cons i rest ih =>
      have hstep := fencingUpdate_corners_stable speed size i.1 i.2.1 i.2.2 s h
      have hne : (fencingUpdate speed size i.1 i.2.1 i.2.2 s).1.corners ≠ [] := by
        rw [hstep]; exact h
      calc (fencingIter speed size (i :: rest) s).corners
          = (fencingIter speed size rest
              (fencingUpdate speed size i.1 i.2.1 i.2.2 s).1).corners := rfl
        _ = (fencingUpdate speed size i.1 i.2.1 i.2.2 s).1.corners := ih _ hne
        _ = s.corners := hstep

/-- C9: with the waypoint inactive, a `FencingEnemy` update returns the state
untouched with no collision test (so it cannot end the game that tick); on the
first update with the waypoint active it captures the four corners of the
half-side-50 square around the waypoint's position at that moment; and once
the corner list is nonempty it is never recomputed by any later sequence of
updates, whatever the waypoint does. -/
theorem fencing_freeze_behavior (speed size : ℝ) (wp : WaypointR)
    (px py : ℝ) (s : FencingState) :
    (wp.active = false → fencingUpdate speed size wp px py s = (s, False)) ∧
    (wp.active = true → s.corners = [] →
      (fencingUpdate speed size wp px py s).1.corners = squarePath wp.x wp.y) ∧
    (s.corners ≠ [] →
      ∀ inputs : List (WaypointR × ℝ × ℝ),
        (fencingIter speed size inputs s).corners = s.corners) := by
  refine ⟨?_, ?_, fun h inputs => fencingIter_corners_stable speed size inputs s h⟩
  · intro h
    simp only [fencingUpdate, h]
    rfl
  · intro hact hempty
    have hsq : squarePath wp.x wp.y ≠ [] := by simp [squarePath]
    simp only [fencingUpdate, hact, if_pos hempty, if_neg hsq]
    split_ifs <;> simp_all

/-- Witness for C9 at a concrete input: with an inactive waypoint, the update
leaves the state (1, 2, index 0, no corners) untouched and reports no hit. -/
theorem fencing_freeze_behavior_witness :
    fencingUpdate 2 10 ⟨false, 0, 0⟩ 0 0 ⟨1, 2, 0, []⟩ =
      ((⟨1, 2, 0, []⟩ : FencingState), False) :=
  (fencing_freeze_behavior 2 10 ⟨false, 0, 0⟩ 0 0 ⟨1, 2, 0, []⟩).1 rfl

/-- Witness for C7's amended claim at a concrete input with the waypoint
inactive (the generator's first spawn fires before any click): the Fencing
enemy sits at its default position (7, 9), not at the waypoint. -/
theorem create_enemy_batch_witness :
    (create_enemy ⟨800, 450, false, 3, 4, 7, 9, 700, 225, []⟩
        10 11 20 21 1500).1.enemies =
      [] ++
        [GenEnemy.randomWalk 20 "blue" 7 10 11,
         GenEnemy.chasing 20 "red" 3 20 21,
         GenEnemy.fencing 10 "green" 2 7 9,
         GenEnemy.circular 15 "orange" (5 / 2) 400 225 100 2] ∧
    (create_enemy ⟨800, 450, false, 3, 4, 7, 9, 700, 225, []⟩
        10 11 20 21 1500).2 = 1500 := by
  have h := create_enemy_batch ⟨800, 450, false, 3, 4, 7, 9, 700, 225, []⟩
    10 11 20 21 1500 (by norm_num) (by norm_num) (by norm_num)
    (by norm_num) (by norm_num)
  refine ⟨?_, h.2.2.2.1⟩
  have h1 := h.1
  norm_num at h1 ⊢
  exact h1

/-- A Won session stays Won through any enemy pass: an enemy's Lose request
is a no-op once a terminal state is set. -/
theorem runEnemies_preserves_won (w h px py : ℝ) (wp : WaypointR)
    (es : List EnemyState) :
    (runEnemies w h px py wp es (some Outcome.won)).2 = some Outcome.won := by
  induction es with
  | nil => rfl
  | cons e rest ih =>
      show (runEnemies w h px py wp rest
        (if (enemyStep w h px py wp e).2
         then setOutcome (some Outcome.won) Outcome.lost
         else some Outcome.won)).2 = some Outcome.won
      split_ifs <;> exact ih

/-- C8: if at the start of a tick the session is still running and the
player's position is inside Home, then the player's own update — which runs
before any enemy update — already sets the outcome to Won, and the full tick
ends Won no matter which enemy collision conditions hold that tick: Win takes
precedence over Lose within the tick. -/
theorem tick_win_precedence (s : Session)
    (hrun : s.outcome = none)
    (hc : contains s.home_x s.home_y s.home_size s.player_x s.player_y) :
    (playerStep s).outcome = some Outcome.won ∧
    (tick s).outcome = some Outcome.won := by
  have hp : (playerStep s).outcome = some Outcome.won := by
    simp only [playerStep, if_pos hc, hrun]
    rfl
  refine ⟨hp, ?_⟩
  show (runEnemies (playerStep s).screen_width (playerStep s).screen_height
    (playerStep s).player_x (playerStep s).player_y (playerStep s).waypoint
    (playerStep s).enemies (playerStep s).outcome).2 = some Outcome.won
  rw [hp]
  exact runEnemies_preserves_won _ _ _ _ _ _

/-- Witness for C8 at a concrete input: player standing exactly on Home
(700, 225) of an 800×450 session, with a chasing enemy whose collision
condition holds at that very spot; the tick still ends Won. -/
theorem tick_win_precedence_witness :
    (playerStep ⟨800, 450, ⟨false, 0, 0⟩, 700, 225, 20, 700, 225, 5,
        [EnemyState.chasing 20 3 700 225], none⟩).outcome =
      some Outcome.won ∧
    (tick ⟨800, 450, ⟨false, 0, 0⟩, 700, 225, 20, 700, 225, 5,
        [EnemyState.chasing 20 3 700 225], none⟩).outcome =
      some Outcome.won :=
  tick_win_precedence
    ⟨800, 450, ⟨false, 0, 0⟩, 700, 225, 20, 700, 225, 5,
      [EnemyState.chasing 20 3 700 225], none⟩
    rfl (by norm_num [contains])

end TurtleAdventure
